import Mathlib

/-
Verification of the BOTINOK single-channel video notifier
(src/app/main.py) against its natural-language specification.

The embedding models the pure decision logic of the program:
- `PersistedState` mirrors the JSON dict `{last_video_id, initialized}`.
- `check_video_task` mirrors the function of the same name (main.py
  150-196).  Effects are made explicit: the YouTube response arrives as
  an `Option YTResponse` argument (`None` on `HttpError` or any other
  exception in `YouTubeService.get_latest_video`, main.py 97-115); the
  transport outcome of the Telegram HTTP post arrives as a `Bool`
  argument; the result records the successor state together with flags
  for each observable effect (save performed, `send_alert` called,
  delivery attempted, delivery succeeded).
- `StateManager.load_state` mirrors `StateManager._load_state`
  (main.py 39-53) with the read outcome made explicit, and
  `StateManager.create_default_state` mirrors `_create_default_state`
  (main.py 55-59), whose rewrite of the state file may itself fail.
- `health_check` mirrors the Flask route of the same name (main.py
  71-73).
- The lock-coverage tables transliterate which state accesses of each
  entry point run while the shared `threading.Lock` is held.
-/

namespace Botinok

/-- The environment-derived configuration (main.py 27-33).  Each field is
`Option String`: `os.getenv` yields `None` when the variable is unset,
and the empty string is possible when it is set but empty. -/
structure Config where
  TG_TOKEN : Option String
  TG_CHANNEL : Option String
  YT_KEY : Option String
  YT_CHANNEL_ID : Option String
deriving Repr, DecidableEq

/-- Python truthiness of an optional string: `None` and `""` are falsy,
every other string is truthy.  Used by `all([Config.TG_TOKEN,
Config.TG_CHANNEL])` in `TelegramService.send_alert` (main.py 120). -/
def truthy : Option String → Bool
  | none => false
  | some s => !s.isEmpty

/-- The persisted dedup state, the JSON dict
`{last_video_id: string|null, initialized: bool}` (main.py 53, 56). -/
structure PersistedState where
  last_video_id : Option String
  initialized : Bool
deriving Repr, DecidableEq

/-- One item of the YouTube search response, as `check_video_task` reads
it: `item.id.videoId` and `item.snippet.title` may be absent (the
`KeyError` path, main.py 166-173).  `publishedAt` is carried from the
snippet; the code never reads it. -/
structure RawItem where
  videoId : Option String
  title : Option String
  publishedAt : Nat
deriving Repr, DecidableEq

/-- A successfully fetched YouTube search response: its `items` list
(main.py 161). -/
structure YTResponse where
  items : List RawItem
deriving Repr, DecidableEq

/-- The `video_data` dict passed to `TelegramService.send_alert`
(main.py 187). -/
structure VideoData where
  id : String
  title : String
deriving Repr, DecidableEq

/-- The alert text built by `TelegramService.send_alert` (main.py
124-128). -/
def alertMessage (video_data : VideoData) : String :=
  "🎥 Новое видео!\n\n<b>" ++ video_data.title ++ "</b>\n\nСсылка: https://youtu.be/" ++ video_data.id

/-- `TelegramService.send_alert` (main.py 118-148).  `transportOk` is the
outcome of the HTTP post when one is attempted (`True` on a 2xx
acknowledgement, `False` on HTTP error, timeout or any exception).
Returns `(success, attempted)` where `attempted` is `some text` when the
HTTP post was reached with message `text`, and `none` when the guard at
main.py 120 returned `False` before any delivery was attempted because
the token or the channel is unset or empty. -/
def TelegramService.send_alert (cfg : Config) (transportOk : Bool)
    (video_data : VideoData) : Bool × Option String :=
  if !(truthy cfg.TG_TOKEN && truthy cfg.TG_CHANNEL) then
    (false, none)
  else
    (transportOk, some (alertMessage video_data))

/-- The observable outcome of one `check_video_task` invocation:
the successor in-memory state, whether `state_manager.save_state()` was
called, whether `TelegramService.send_alert` was called, whether a
delivery was actually attempted (the HTTP post reached), and whether the
delivery succeeded. -/
structure CycleResult where
  state : PersistedState
  saved : Bool
  sendAlertCalled : Bool
  deliveryAttempted : Option String
  notified : Bool
deriving Repr, DecidableEq

/-- `check_video_task` (main.py 150-196).  `response` is the value
returned by `YouTubeService.get_latest_video` (`none` on any fetch
error; an empty falsy dict behaves identically to an empty item list,
both returning at main.py 157/162 without effect).  The body:
abort on missing response, empty items, or a missing
`id.videoId`/`snippet.title` key; initialize-and-save when
`initialized` is false; otherwise notify-and-save only when the id is
new and `send_alert` succeeded. -/
def check_video_task (cfg : Config) (response : Option YTResponse)
    (transportOk : Bool) (state : PersistedState) : CycleResult :=
  match response with
  | none => ⟨state, false, false, none, false⟩
  | some resp =>
    match resp.items with
    | [] => ⟨state, false, false, none, false⟩
    | video :: _ =>
      match video.videoId, video.title with
      | some current_id, some title =>
        if !state.initialized then
          ⟨⟨some current_id, true⟩, true, false, none, false⟩
        else if some current_id ≠ state.last_video_id then
          let r := TelegramService.send_alert cfg transportOk ⟨current_id, title⟩
          if r.1 then
            ⟨⟨some current_id, state.initialized⟩, true, true, r.2, true⟩
          else
            ⟨state, false, true, r.2, false⟩
        else
          ⟨state, false, false, none, false⟩
      | _, _ => ⟨state, false, false, none, false⟩

/-- The per-invocation inputs of one scheduled cycle: the fetch outcome
and the transport outcome of a Telegram post, should one be attempted. -/
structure CycleInput where
  response : Option YTResponse
  transportOk : Bool
deriving Repr, DecidableEq

/-- The state after one `check_video_task` invocation. -/
def runCycle (cfg : Config) (s : PersistedState) (i : CycleInput) : PersistedState :=
  (check_video_task cfg i.response i.transportOk s).state

/-- The state after a sequence of `check_video_task` invocations. -/
def runCycles (cfg : Config) (s : PersistedState) (l : List CycleInput) : PersistedState :=
  l.foldl (runCycle cfg) s

/-- Modelled from the spec: the staleness gate of CheckCycle step 2
(`age = now − candidate.publishedAt`; skip when
`age > stalenessThreshold`, default one day).  No such gate exists in
src/app/main.py; this definition only states the policy the spec
describes so the claim can be formalised. -/
def isStale (now threshold : Nat) (item : RawItem) : Bool :=
  decide (threshold < now - item.publishedAt)

/-- The default cold-start state `{last_video_id: None, initialized:
False}` (main.py 53, 56). -/
def defaultState : PersistedState := ⟨none, false⟩

/-- The possible outcomes of reading and parsing the state file inside
`StateManager._load_state` (main.py 40-53): a successful parse, a
`FileNotFoundError`, a `json.JSONDecodeError`, or any other exception. -/
inductive ReadOutcome where
  | ok (data : PersistedState)
  | fileNotFound
  | decodeError
  | otherError
deriving Repr, DecidableEq

/-- `StateManager._create_default_state` (main.py 55-59): writes the
default state to the state file and returns it.  The write is not
guarded by any handler, so when it fails the exception propagates
(`Except.error`). -/
def StateManager.create_default_state (writeOk : Bool) : Except Unit PersistedState :=
  if writeOk then .ok defaultState else .error ()

/-- `StateManager._load_state` (main.py 39-53).  On `FileNotFoundError`
or `json.JSONDecodeError` it calls `_create_default_state` (whose file
write may itself fail and propagate, since an exception raised inside an
`except` block is not caught by the sibling handlers); on any other
exception it returns the default dict directly. -/
def StateManager.load_state (r : ReadOutcome) (writeOk : Bool) : Except Unit PersistedState :=
  match r with
  | .ok d => .ok d
  | .fileNotFound => StateManager.create_default_state writeOk
  | .decodeError => StateManager.create_default_state writeOk
  | .otherError => .ok ⟨none, false⟩

/-- The JSON body returned by the `health_check` Flask route
(main.py 71-73). -/
structure HealthResponse where
  status : String
  last_checked : Option String
deriving Repr, DecidableEq

/-- `health_check` (main.py 71-73): returns
`{"status": "running", "last_checked": state.get("last_video_id")}`
with HTTP status 200. -/
def health_check (s : PersistedState) : HealthResponse × Nat :=
  (⟨"running", s.last_video_id⟩, 200)

/-- The state-relevant actions an entry point of the process can
perform. -/
inductive Action where
  | fetchLatest
  | readState
  | sendNotify
  | writeState
  | saveState
  | schedulerShutdown
deriving Repr, DecidableEq

/-- The state accesses of one `check_video_task` invocation, each paired
with whether the shared `threading.Lock` is held while it executes: the
entire body runs inside `with lock:` (main.py 151). -/
def checkCycleAccesses : List (Action × Bool) :=
  [(.fetchLatest, true), (.readState, true), (.sendNotify, true),
   (.writeState, true), (.saveState, true)]

/-- The startup priming pass: `create_app` (main.py 222-225) calls
`check_video_task` itself, so its accesses are the same lock-guarded
ones. -/
def primingCycleAccesses : List (Action × Bool) := checkCycleAccesses

/-- The accesses of `graceful_shutdown` (main.py 208-212): it calls
`scheduler.shutdown()` and then `state_manager.save_state()` directly,
with no `with lock:` around either. -/
def gracefulShutdownAccesses : List (Action × Bool) :=
  [(.schedulerShutdown, false), (.saveState, false)]

/-- Every access of the entry point executes while holding the shared
lock. -/
def allUnderLock (l : List (Action × Bool)) : Bool :=
  l.all (fun a => a.2)

/-- A fully populated configuration, used to instantiate theorems at
concrete inputs. -/
def cfgFull : Config :=
  ⟨some "tok", some "chan", some "key", some "chanId"⟩

/-- C1 counterexample: with a fully configured bot in Tracking state
`{"abc", true}`, a candidate published at epoch 0 observed at
`now = 31536000` (age one year, far beyond the one-day threshold of
86400) is still notified, the state is still mutated to its id, and
`save_state` is still called: `check_video_task` has no staleness
gate. -/
theorem staleness_gate_counterexample :
    isStale 31536000 86400 ⟨some "xyz", some "t", 0⟩ = true ∧
    check_video_task cfgFull (some ⟨[⟨some "xyz", some "t", 0⟩]⟩) true ⟨some "abc", true⟩ =
      ⟨⟨some "xyz", true⟩, true, true,
        some (alertMessage ⟨"xyz", "t"⟩), true⟩ := by
  constructor
  · decide
  · rfl

/-- C1 (amended): `check_video_task` applies no staleness gate at all:
its outcome is independent of the candidate publication time, so stale
candidates are initialized, notified and persisted exactly like fresh
ones. -/
theorem staleness_gate_absent (cfg : Config) (topt : Bool)
    (s : PersistedState) (v : RawItem) (rest : List RawItem) (p : Nat) :
    check_video_task cfg (some ⟨{ v with publishedAt := p } :: rest⟩) topt s =
      check_video_task cfg (some ⟨v :: rest⟩) topt s := by
  cases v
  rfl

/-- C2: from the cold-start state `{None, False}`, a cycle observing any
well-formed candidate (in particular any non-stale one) ends in state
`{candidate.id, True}`, persists it via `save_state`, and never calls
`send_alert` (so attempts and sends nothing). -/
theorem cold_start_baseline (cfg : Config) (topt : Bool) (v : RawItem)
    (rest : List RawItem) (cid t : String) (now threshold : Nat)
    (hid : v.videoId = some cid) (ht : v.title = some t)
    (hfresh : isStale now threshold v = false) :
    check_video_task cfg (some ⟨v :: rest⟩) topt ⟨none, false⟩ =
      ⟨⟨some cid, true⟩, true, false, none, false⟩ := by
  cases v
  cases hid
  cases ht
  rfl

/-- C2 witness: the cold-start theorem at a concrete fresh candidate. -/
theorem cold_start_baseline_witness :
    check_video_task cfgFull (some ⟨[⟨some "new1", some "t", 100⟩]⟩) true ⟨none, false⟩ =
      ⟨⟨some "new1", true⟩, true, false, none, false⟩ :=
  cold_start_baseline cfgFull true ⟨some "new1", some "t", 100⟩ [] "new1" "t" 100 86400
    rfl rfl (by decide)

/-- C3: in Tracking state, a candidate whose id equals the persisted
`last_video_id` leads to the duplicate branch: no `send_alert` call, no
save, state returned unchanged. -/
theorem duplicate_idempotent (cfg : Config) (topt : Bool) (v : RawItem)
    (rest : List RawItem) (cid t : String) (s : PersistedState)
    (hinit : s.initialized = true) (hid : v.videoId = some cid)
    (ht : v.title = some t) (hdup : s.last_video_id = some cid) :
    check_video_task cfg (some ⟨v :: rest⟩) topt s =
      ⟨s, false, false, none, false⟩ := by
  cases v
  cases hid
  cases ht
  cases s
  simp only [check_video_task, hinit]
  simp_all

/-- C3 witness: the duplicate theorem at a concrete state and
candidate. -/
theorem duplicate_idempotent_witness :
    check_video_task cfgFull (some ⟨[⟨some "abc", some "t", 0⟩]⟩) true ⟨some "abc", true⟩ =
      ⟨⟨some "abc", true⟩, false, false, none, false⟩ :=
  duplicate_idempotent cfgFull true ⟨some "abc", some "t", 0⟩ [] "abc" "t"
    ⟨some "abc", true⟩ rfl rfl rfl rfl

/-- C4: in Tracking state with a new candidate id, the cycle commits only
on delivery success: when `send_alert` fails the state is returned
unchanged and nothing is saved; when it succeeds, `last_video_id`
becomes the candidate id, the state is saved, and a later cycle
observing the same candidate takes the duplicate branch and changes
nothing further (the id is updated exactly once). -/
theorem commit_on_success (cfg : Config) (topt : Bool) (v : RawItem)
    (rest : List RawItem) (cid t : String) (s : PersistedState)
    (hinit : s.initialized = true) (hid : v.videoId = some cid)
    (ht : v.title = some t) (hnew : some cid ≠ s.last_video_id) :
    ((TelegramService.send_alert cfg topt ⟨cid, t⟩).1 = false →
      check_video_task cfg (some ⟨v :: rest⟩) topt s =
        ⟨s, false, true, (TelegramService.send_alert cfg topt ⟨cid, t⟩).2, false⟩) ∧
    ((TelegramService.send_alert cfg topt ⟨cid, t⟩).1 = true →
      check_video_task cfg (some ⟨v :: rest⟩) topt s =
        ⟨⟨some cid, true⟩, true, true,
          (TelegramService.send_alert cfg topt ⟨cid, t⟩).2, true⟩ ∧
      check_video_task cfg (some ⟨v :: rest⟩) topt ⟨some cid, true⟩ =
        ⟨⟨some cid, true⟩, false, false, none, false⟩) := by
  cases v
  cases hid
  cases ht
  cases s
  simp only [PersistedState.initialized] at hinit
  subst hinit
  simp only [PersistedState.last_video_id] at hnew
  constructor
  · intro hfail
    simp [check_video_task, hnew, hfail]
  · intro hok
    constructor
    · simp [check_video_task, hnew, hok]
    · simp [check_video_task]

/-- C4 witness: the commit theorem at concrete inputs, failure side with
a failing transport and success side with an acknowledged post. -/
theorem commit_on_success_witness :
    check_video_task cfgFull (some ⟨[⟨some "xyz", some "t", 0⟩]⟩) false ⟨some "abc", true⟩ =
      ⟨⟨some "abc", true⟩, false, true,
        some (alertMessage ⟨"xyz", "t"⟩), false⟩ ∧
    check_video_task cfgFull (some ⟨[⟨some "xyz", some "t", 0⟩]⟩) true ⟨some "xyz", true⟩ =
      ⟨⟨some "xyz", true⟩, false, false, none, false⟩ :=
  ⟨(commit_on_success cfgFull false ⟨some "xyz", some "t", 0⟩ [] "xyz" "t"
      ⟨some "abc", true⟩ rfl rfl rfl (by decide)).1 (by decide),
   ((commit_on_success cfgFull true ⟨some "xyz", some "t", 0⟩ [] "xyz" "t"
      ⟨some "abc", true⟩ rfl rfl rfl (by decide)).2 (by decide)).2⟩

/-- C5: the three fetch-failure modes — `get_latest_video` returning
`None`, a response with an empty item list, and a malformed first item
missing `id.videoId` or `snippet.title` — all return the identical
no-op outcome: state unchanged, no save, no `send_alert` call, no
delivery. -/
theorem fetch_failure_noop (cfg : Config) (topt : Bool) (s : PersistedState) :
    check_video_task cfg none topt s = ⟨s, false, false, none, false⟩ ∧
    check_video_task cfg (some ⟨[]⟩) topt s = ⟨s, false, false, none, false⟩ ∧
    ∀ v rest, v.videoId = none ∨ v.title = none →
      check_video_task cfg (some ⟨v :: rest⟩) topt s =
        ⟨s, false, false, none, false⟩ := by
  refine ⟨rfl, rfl, ?_⟩
  intro v rest h
  obtain ⟨vid, ti, pub⟩ := v
  rcases h with h | h
  · cases h
    cases ti <;> rfl
  · cases h
    cases vid <;> rfl

/-- C5 witness: the no-op theorem applied to a malformed item with the
`videoId` key absent. -/
theorem fetch_failure_noop_witness :
    check_video_task cfgFull (some ⟨[⟨none, some "t", 0⟩]⟩) true ⟨some "a", true⟩ =
      ⟨⟨some "a", true⟩, false, false, none, false⟩ :=
  (fetch_failure_noop cfgFull true ⟨some "a", true⟩).2.2 ⟨none, some "t", 0⟩ []
    (Or.inl rfl)

/-- C6 counterexample: when the state file is missing and the rewrite of
a fresh default file performed by `_create_default_state` itself fails,
the exception propagates out of `_load_state` — loading does not return
the default state and is not non-raising in every read-failure case. -/
theorem load_fallback_counterexample :
    StateManager.load_state .fileNotFound false = .error () := rfl

/-- C6 (amended): on a missing or unparseable state file, `_load_state`
returns the default `{None, False}` provided the rewrite of the default
state file succeeds (a failing rewrite propagates), and on any other
read error it returns the default directly, write outcome irrelevant. -/
theorem load_fallback :
    StateManager.load_state .fileNotFound true = .ok defaultState ∧
    StateManager.load_state .decodeError true = .ok defaultState ∧
    StateManager.load_state .otherError true = .ok defaultState ∧
    StateManager.load_state .otherError false = .ok defaultState :=
  ⟨rfl, rfl, rfl, rfl⟩

/-- One cycle never resets the `initialized` flag: once true it stays
true, whatever the fetch and transport outcomes are. -/
theorem runCycle_initialized_mono (cfg : Config) (s : PersistedState)
    (i : CycleInput) (h : s.initialized = true) :
    (runCycle cfg s i).initialized = true := by
  obtain ⟨lid, init⟩ := s
  simp only [PersistedState.initialized] at h
  subst h
  obtain ⟨resp, topt⟩ := i
  cases resp with
  | none => rfl
  | some r =>
    obtain ⟨items⟩ := r
    cases items with
    | nil => rfl
    | cons v rest =>
      obtain ⟨vid, ti, pub⟩ := v
      cases vid with
      | none => cases ti <;> rfl
      | some cid =>
        cases ti with
        | none => rfl
        | some t =>
          simp only [runCycle, check_video_task]
          split
          · rfl
          · split
            · split <;> rfl
            · rfl

/-- `initialized` stays true across any sequence of cycles. -/
theorem runCycles_initialized_mono (cfg : Config) (s : PersistedState)
    (l : List CycleInput) (h : s.initialized = true) :
    (runCycles cfg s l).initialized = true := by
  induction l generalizing s with
  | nil => exact h
  | cons i rest ih =>
    simp only [runCycles, List.foldl] at ih ⊢
    exact ih (runCycle cfg s i) (runCycle_initialized_mono cfg s i h)

/-- C7: `initialized` is monotone.  A single cycle that ends with the
flag false must have started with it false (so no operation ever resets
it), and from any state with the flag true every sequence of cycles
keeps it true; together these mean the flag flips false to true at most
once over any run. -/
theorem initialized_monotone (cfg : Config) (i : CycleInput)
    (s : PersistedState) (l : List CycleInput) :
    ((runCycle cfg s i).initialized = false → s.initialized = false) ∧
    (s.initialized = true → (runCycles cfg s l).initialized = true) := by
  constructor
  · intro hf
    cases hs : s.initialized with
    | false => rfl
    | true =>
      have := runCycle_initialized_mono cfg s i hs
      rw [hf] at this
      exact absurd this (by decide)
  · exact runCycles_initialized_mono cfg s l

/-- C7 witness: the monotonicity theorem at a concrete initialized state
and a concrete two-cycle run. -/
theorem initialized_monotone_witness :
    (runCycles cfgFull ⟨some "abc", true⟩
      [⟨none, true⟩, ⟨some ⟨[⟨some "xyz", some "t", 0⟩]⟩, false⟩]).initialized = true :=
  (initialized_monotone cfgFull ⟨none, true⟩ ⟨some "abc", true⟩
    [⟨none, true⟩, ⟨some ⟨[⟨some "xyz", some "t", 0⟩]⟩, false⟩]).2 rfl

/-- C8 counterexample: the shutdown flush is not performed under the
shared lock — `graceful_shutdown` calls `save_state` directly, outside
any `with lock:` block, so the lock does not cover all three entry
points. -/
theorem shutdown_flush_unlocked :
    allUnderLock gracefulShutdownAccesses = false := rfl

/-- C8 (amended): the shared lock covers the startup priming cycle and
every scheduled cycle (the whole body of `check_video_task` runs inside
`with lock:`), but not the shutdown flush: `graceful_shutdown` saves the
state without acquiring the lock, so its non-interleaving with an
in-flight cycle rests on `scheduler.shutdown()` waiting for running
jobs, not on the lock. -/
theorem lock_coverage :
    allUnderLock checkCycleAccesses = true ∧
    allUnderLock primingCycleAccesses = true ∧
    allUnderLock gracefulShutdownAccesses = false := by
  decide

/-- C9 counterexample: two states that differ only in the `initialized`
flag produce the same health response, so the health query does not
return the flag. -/
theorem health_check_counterexample :
    health_check ⟨some "a", true⟩ = health_check ⟨some "a", false⟩ ∧
    (⟨some "a", true⟩ : PersistedState) ≠ (⟨some "a", false⟩ : PersistedState) :=
  ⟨rfl, by decide⟩

/-- C9 (amended): the health query returns the constant status string
and the last committed `last_video_id` (under the key `last_checked`)
with HTTP 200; the `initialized` flag is not exposed. -/
theorem health_check_contents (s : PersistedState) :
    health_check s = (⟨"running", s.last_video_id⟩, 200) := rfl

/-- C10: when the Telegram token or channel is unset or empty,
`send_alert` fails without attempting any delivery, and a Tracking-state
cycle with a new candidate therefore records the attempt as a failure:
`last_video_id` unchanged, nothing saved, no HTTP post made. -/
theorem missing_config_guard (cfg : Config) (topt : Bool) (v : RawItem)
    (rest : List RawItem) (cid t : String) (s : PersistedState)
    (hcfg : truthy cfg.TG_TOKEN = false ∨ truthy cfg.TG_CHANNEL = false)
    (hinit : s.initialized = true) (hid : v.videoId = some cid)
    (ht : v.title = some t) (hnew : some cid ≠ s.last_video_id) :
    TelegramService.send_alert cfg topt ⟨cid, t⟩ = (false, none) ∧
    check_video_task cfg (some ⟨v :: rest⟩) topt s =
      ⟨s, false, true, none, false⟩ := by
  have hsend : TelegramService.send_alert cfg topt ⟨cid, t⟩ = (false, none) := by
    unfold TelegramService.send_alert
    rcases hcfg with h | h <;> simp [h]
  refine ⟨hsend, ?_⟩
  cases v
  cases hid
  cases ht
  cases s
  simp only [PersistedState.initialized] at hinit
  subst hinit
  simp only [PersistedState.last_video_id] at hnew
  simp [check_video_task, hnew, hsend]

/-- C10 witness: the guard theorem with the token unset, a new candidate
and an initialized state. -/
theorem missing_config_guard_witness :
    TelegramService.send_alert ⟨none, some "chan", some "key", some "chanId"⟩ true ⟨"xyz", "t"⟩ =
      (false, none) ∧
    check_video_task ⟨none, some "chan", some "key", some "chanId"⟩
      (some ⟨[⟨some "xyz", some "t", 0⟩]⟩) true ⟨some "abc", true⟩ =
      ⟨⟨some "abc", true⟩, false, true, none, false⟩ :=
  missing_config_guard ⟨none, some "chan", some "key", some "chanId"⟩ true
    ⟨some "xyz", some "t", 0⟩ [] "xyz" "t" ⟨some "abc", true⟩
    (Or.inl rfl) rfl rfl rfl (by decide)

end Botinok
